import Mathlib

/-!
Verification of the CMake-GitVersion example programs
(`src/example/example.cc` and `src/example/example-shared.cc`).

Both programs include a header generated at build time
(`example-GitVersion.h` / `example_lib-GitVersion.h`) exposing seven
zero-argument accessors, and print one header line followed by one line
per accessor on standard output.
-/

/-- Modelled from the spec: the generated headers `example-GitVersion.h` and
`example_lib-GitVersion.h` are produced by the build step and are absent from
`src/`.  Per the spec (section 3, DATA MODEL) each provider exposes seven
zero-argument accessors over build-time-populated, immutable data:
five text fields, one boolean (`version_isdirty`) and one non-negative
integer (`version_distance`); `version_flag` is an opaque passthrough value,
modelled here as text.  The structure projections play the role of the
accessors: each takes no input besides the embedded provider value and
returns its field with no possibility of failure. -/
structure VersionInfo where
  version_string : String
  version_branch : String
  version_fullhash : String
  version_shorthash : String
  version_isdirty : Bool
  version_distance : Nat
  version_flag : String
deriving DecidableEq

/-- Default `std::ostream` insertion of a `bool` (no `boolalpha` manipulator is
ever set in either program): `true` prints as `1`, `false` prints as `0`. -/
def streamBool (b : Bool) : String := if b then "1" else "0"

/-- Default `std::ostream` insertion of a non-negative integer: its decimal
numeral. -/
def streamNat (n : Nat) : String := toString n

/-- The seven provider accessors, one constructor per accessor, in the order
they are declared by the data model. -/
inductive FieldId where
  | version_string
  | version_branch
  | version_fullhash
  | version_shorthash
  | version_isdirty
  | version_distance
  | version_flag
deriving DecidableEq, Fintype

/-- The text label of an accessor, as it appears in the printed output. -/
def FieldId.label : FieldId → String
  | .version_string => "version_string"
  | .version_branch => "version_branch"
  | .version_fullhash => "version_fullhash"
  | .version_shorthash => "version_shorthash"
  | .version_isdirty => "version_isdirty"
  | .version_distance => "version_distance"
  | .version_flag => "version_flag"

/-- The text produced when the result of calling accessor `f` on provider
value `v` is inserted into `std::cout`: strings verbatim, the boolean and the
integer through the default stream formatting. -/
def FieldId.rendered (v : VersionInfo) : FieldId → String
  | .version_string => v.version_string
  | .version_branch => v.version_branch
  | .version_fullhash => v.version_fullhash
  | .version_shorthash => v.version_shorthash
  | .version_isdirty => streamBool v.version_isdirty
  | .version_distance => streamNat v.version_distance
  | .version_flag => v.version_flag

/-- One operand of a chain of `<<` insertions: either a string literal or a
call to one of the seven accessors. -/
inductive OutExpr where
  | lit (s : String)
  | call (f : FieldId)
deriving DecidableEq

/-- The body of `main` in `src/example/example.cc`, one entry per
`std::cout` statement, each entry listing the inserted operands in order
(the trailing `std::endl` ends the line and is left implicit). -/
def mainProg : List (List OutExpr) :=
  [ [.lit "CMake-GitVersion example"],
    [.lit "- version_string: ", .call .version_string],
    [.lit "- version_branch: ", .call .version_branch],
    [.lit "- version_fullhash: ", .call .version_fullhash],
    [.lit "- version_shorthash: ", .call .version_shorthash],
    [.lit "- version_isdirty: ", .call .version_isdirty],
    [.lit "- version_distance: ", .call .version_distance],
    [.lit "- version_flag: ", .call .version_flag] ]

/-- The body of `print_version_of_lib` in `src/example/example-shared.cc`,
one entry per `std::cout` statement. -/
def libProg : List (List OutExpr) :=
  [ [.lit "| CMake-GitVersion library version"],
    [.lit "| - version_string: ", .call .version_string],
    [.lit "| - version_branch: ", .call .version_branch],
    [.lit "| - version_fullhash: ", .call .version_fullhash],
    [.lit "| - version_shorthash: ", .call .version_shorthash],
    [.lit "| - version_isdirty: ", .call .version_isdirty],
    [.lit "| - version_distance: ", .call .version_distance],
    [.lit "| - version_flag: ", .call .version_flag] ]

/-- The text of one output line: the concatenation, in order, of the texts of
the inserted operands. -/
def execLine (v : VersionInfo) : List OutExpr → String
  | [] => ""
  | [e] => (match e with | .lit s => s | .call f => f.rendered v)
  | e :: es => (match e with | .lit s => s | .call f => f.rendered v) ++ execLine v es

/-- The lines a program writes, in order, for provider value `v`. -/
def progLines (v : VersionInfo) (p : List (List OutExpr)) : List String :=
  p.map (execLine v)

/-- The lines printed by `main` of `example.cc`. -/
def mainLines (v : VersionInfo) : List String := progLines v mainProg

/-- The lines printed by `print_version_of_lib` of `example-shared.cc`. -/
def print_version_of_lib (v : VersionInfo) : List String := progLines v libProg

/-- `main` of `example.cc`: it receives `argc`/`argv` (modelled as the list of
command-line arguments), writes its lines, and returns 0. -/
def mainRun (v : VersionInfo) (args : List String) : List String × Nat :=
  (mainLines v, 0)

/-- Executing one `std::cout` statement: the provider state is read, never
written, and the produced line is appended to the output so far. -/
def stepLine (st : VersionInfo × List String) (es : List OutExpr) : VersionInfo × List String :=
  (st.1, st.2 ++ [execLine st.1 es])

/-- Small-step execution of a whole program body from provider state `v`,
returning the final provider state and the accumulated output. -/
def runProg (v : VersionInfo) (p : List (List OutExpr)) : VersionInfo × List String :=
  p.foldl stepLine (v, [])

/-- The accessor calls one `std::cout` statement performs, in order. -/
def lineCalls (es : List OutExpr) : List FieldId :=
  es.filterMap (fun e => match e with | .call f => some f | .lit _ => none)

/-- The accessor calls a program performs over its whole run, in order. -/
def progCalls (p : List (List OutExpr)) : List FieldId :=
  (p.map lineCalls).flatten

/-- The fixed field order of the output. -/
def fieldOrder : List FieldId :=
  [.version_string, .version_branch, .version_fullhash, .version_shorthash,
   .version_isdirty, .version_distance, .version_flag]

/-- Calling a provider accessor twice in a row, recording both results. -/
def callTwice {α : Type} (f : VersionInfo → α) (v : VersionInfo) : α × α :=
  (f v, f v)

/-- The provider scenario of the spec's testable-properties section. -/
def scenarioInfo : VersionInfo :=
  { version_string := "1.2.3-dirty"
    version_branch := "main"
    version_fullhash := "abcdef1234567890"
    version_shorthash := "abcdef1"
    version_isdirty := true
    version_distance := 5
    version_flag := "debug" }

theorem foldl_stepLine_fst (p : List (List OutExpr)) (v : VersionInfo) (out : List String) :
    (p.foldl stepLine (v, out)).1 = v := by
  induction p generalizing out with
  | nil => rfl
  | cons es rest ih => exact ih _

theorem foldl_stepLine_snd (p : List (List OutExpr)) (v : VersionInfo) (out : List String) :
    (p.foldl stepLine (v, out)).2 = out ++ progLines v p := by
  induction p generalizing out with
  | nil => simp [progLines]
  | cons es rest ih =>
      show (List.foldl stepLine (stepLine (v, out) es) rest).2 = _
      rw [stepLine, ih]
      simp [progLines]

/-- C1: on the scenario provider values, `main` prints the header followed by
the seven fields in order; the five text values and the decimal numeral of the
distance appear verbatim, and the boolean appears through the default stream
formatting. -/
theorem main_scenario_output :
    mainLines scenarioInfo =
      [ "CMake-GitVersion example",
        "- version_string: 1.2.3-dirty",
        "- version_branch: main",
        "- version_fullhash: abcdef1234567890",
        "- version_shorthash: abcdef1",
        "- version_isdirty: 1",
        "- version_distance: 5",
        "- version_flag: debug" ] := by
  decide

/-- C2: for every provider value, each program writes exactly one header line
followed by exactly seven metadata lines, one per field, in the fixed order,
each prefixed with its label (with the two-character bar variant in the second
program). -/
theorem output_shape (v : VersionInfo) :
    mainLines v =
      [ "CMake-GitVersion example",
        "- version_string: " ++ v.version_string,
        "- version_branch: " ++ v.version_branch,
        "- version_fullhash: " ++ v.version_fullhash,
        "- version_shorthash: " ++ v.version_shorthash,
        "- version_isdirty: " ++ streamBool v.version_isdirty,
        "- version_distance: " ++ streamNat v.version_distance,
        "- version_flag: " ++ v.version_flag ] ∧
    print_version_of_lib v =
      [ "| CMake-GitVersion library version",
        "| - version_string: " ++ v.version_string,
        "| - version_branch: " ++ v.version_branch,
        "| - version_fullhash: " ++ v.version_fullhash,
        "| - version_shorthash: " ++ v.version_shorthash,
        "| - version_isdirty: " ++ streamBool v.version_isdirty,
        "| - version_distance: " ++ streamNat v.version_distance,
        "| - version_flag: " ++ v.version_flag ] := by
  exact ⟨rfl, rfl⟩

/-- C3: for every provider value and every argument list, `main` terminates
normally (it is a total function) and returns exit status 0. -/
theorem main_returns_zero (v : VersionInfo) (args : List String) :
    (mainRun v args).2 = 0 := rfl

theorem str_append_assoc (a b c : String) : a ++ b ++ c = a ++ (b ++ c) := by
  cases a with
  | mk da =>
    cases b with
    | mk db =>
      cases c with
      | mk dc =>
        show String.mk (da ++ db ++ dc) = String.mk (da ++ (db ++ dc))
        rw [List.append_assoc]

/-- C4: the output of either program, and the return value of `main`, are a
deterministic function of the provider values alone: two runs against the same
build artifact (the same provider value, whatever the argument lists) produce
byte-identical output. -/
theorem output_deterministic (v₁ v₂ : VersionInfo) (a₁ a₂ : List String)
    (h : v₁ = v₂) :
    mainRun v₁ a₁ = mainRun v₂ a₂ ∧
    print_version_of_lib v₁ = print_version_of_lib v₂ := by
  subst h
  exact ⟨rfl, rfl⟩

theorem output_deterministic_witness :
    scenarioInfo = scenarioInfo ∧
    (mainRun scenarioInfo ["first-run"] = mainRun scenarioInfo ["second-run"] ∧
     print_version_of_lib scenarioInfo = print_version_of_lib scenarioInfo) :=
  ⟨rfl, output_deterministic scenarioInfo scenarioInfo ["first-run"] ["second-run"] rfl⟩

/-- C5: each of the seven zero-argument accessors is pure and deterministic:
two calls to the same accessor on the same provider return identical values,
and executing a whole program by state-passing small steps yields exactly the
pure denotation (no side effect on the provider, no failure: every accessor is
a total function). -/
theorem accessors_pure (v : VersionInfo) :
    (∀ f : FieldId, (callTwice (fun u => FieldId.rendered u f) v).1
        = (callTwice (fun u => FieldId.rendered u f) v).2) ∧
    (callTwice VersionInfo.version_string v).1 = (callTwice VersionInfo.version_string v).2 ∧
    (callTwice VersionInfo.version_branch v).1 = (callTwice VersionInfo.version_branch v).2 ∧
    (callTwice VersionInfo.version_fullhash v).1 = (callTwice VersionInfo.version_fullhash v).2 ∧
    (callTwice VersionInfo.version_shorthash v).1 = (callTwice VersionInfo.version_shorthash v).2 ∧
    (callTwice VersionInfo.version_isdirty v).1 = (callTwice VersionInfo.version_isdirty v).2 ∧
    (callTwice VersionInfo.version_distance v).1 = (callTwice VersionInfo.version_distance v).2 ∧
    (callTwice VersionInfo.version_flag v).1 = (callTwice VersionInfo.version_flag v).2 ∧
    (runProg v mainProg).2 = mainLines v ∧
    (runProg v libProg).2 = print_version_of_lib v := by
  refine ⟨fun f => rfl, rfl, rfl, rfl, rfl, rfl, rfl, rfl, ?_, ?_⟩
  · simpa [runProg] using foldl_stepLine_snd mainProg v []
  · simpa [runProg] using foldl_stepLine_snd libProg v []

/-- C6: each program performs exactly one call to each of the seven accessors,
in the fixed field order, and each call result is written immediately: every
metadata statement consists of exactly the field's label literal followed by
the one accessor call, with no other data flow. -/
theorem accessor_call_trace :
    progCalls mainProg = fieldOrder ∧
    progCalls libProg = fieldOrder ∧
    fieldOrder.Nodup ∧
    (∀ f : FieldId, f ∈ fieldOrder) ∧
    mainProg = [OutExpr.lit "CMake-GitVersion example"] ::
      fieldOrder.map (fun f => [OutExpr.lit ("- " ++ f.label ++ ": "), OutExpr.call f]) ∧
    libProg = [OutExpr.lit "| CMake-GitVersion library version"] ::
      fieldOrder.map (fun f => [OutExpr.lit ("| - " ++ f.label ++ ": "), OutExpr.call f]) := by
  decide

/-- C7: the provider value is process-lifetime constant: executing either
program by small steps never mutates it, so the provider state at the end of
the run equals the state at the start. -/
theorem provider_state_constant (v : VersionInfo) :
    (runProg v mainProg).1 = v ∧ (runProg v libProg).1 = v :=
  ⟨foldl_stepLine_fst mainProg v [], foldl_stepLine_fst libProg v []⟩

/-- C8: the output and return value of `main` in `example.cc` are independent
of the command-line arguments, which are never read. -/
theorem main_ignores_args (v : VersionInfo) (a₁ a₂ : List String) :
    mainRun v a₁ = mainRun v a₂ := rfl

/-- C9: `version_isdirty` is written through default stream formatting: both
programs print it as the numeral 1 (true) or 0 (false), never as the words
true or false. -/
theorem isdirty_numeral (v : VersionInfo) :
    (mainLines v)[5]? = some ("- version_isdirty: " ++ streamBool v.version_isdirty) ∧
    (print_version_of_lib v)[5]? =
      some ("| - version_isdirty: " ++ streamBool v.version_isdirty) ∧
    streamBool true = "1" ∧ streamBool false = "0" :=
  ⟨rfl, rfl, rfl, rfl⟩

/-- C10: given the same values for the seven accessors, the seven metadata
lines of `print_version_of_lib` are exactly the metadata lines of the first
program's `main` with the two characters bar-space prepended; the two programs
otherwise differ only in their header lines. -/
theorem lib_refines_main (v : VersionInfo) :
    print_version_of_lib v =
      "| CMake-GitVersion library version" ::
        (mainLines v).tail.map (fun s => "| " ++ s) := by
  show progLines v libProg = _
  simp only [mainLines, progLines, mainProg, libProg, List.map_cons, List.map_nil,
    List.tail_cons]
  refine congrArg₂ List.cons rfl ?_
  simp only [execLine, FieldId.rendered, str_append_assoc]
  rfl
